import Mathlib

/-!
Shallow embedding of the pickup-request and item-status workflow of the
TrashFormer e-waste tracker (FastAPI + MongoDB, `src/app`).

Modelling conventions:
* Every Mongo collection is an insertion-ordered list of documents;
  `find_one` is the first list element matching the filter, `update_one`
  rewrites the first match in place, `delete_one` removes the first match
  and `delete_many` filters.
* ObjectIds are modelled canonically as their 24-character hex strings,
  so the `$or` string/ObjectId queries of the source collapse to plain id
  equality; `ObjectId(s)` raising `InvalidId` is modelled by the
  executable validity check `isValidOid`.
* `datetime.utcnow()` is an explicit `now : Nat` parameter and the id a
  Mongo insert generates is an explicit `newId : String` parameter.
* Principals are the pydantic `User` / `VendorUser` values returned by
  `get_current_user`: an id plus a `UserRole` enum member.  Python
  `str()` of a str-mixin enum member yields `"UserRole.<NAME>"`, which
  the embedding reproduces in `Role.pyStr`.
* Photo upload and file deletion are external I/O collaborators: the
  stored path is taken as a parameter and file removal is not modelled.
-/

set_option maxRecDepth 8192

namespace Trash

/-- Python `str  x` for an optional id field: `str  None` is the four
character string `None`. -/
def pyStrOpt : Option String → String
  | none => "None"
  | some s => s

/-- Mongo `update_one`: rewrite the first element matching the filter. -/
def updateOne (p : α → Bool) (f : α → α) : List α → List α
  | [] => []
  | x :: xs => if p x then f x :: xs else x :: updateOne p f xs

/-- Mongo `delete_one`: remove the first element matching the filter. -/
def deleteOne (p : α → Bool) : List α → List α
  | [] => []
  | x :: xs => if p x then xs else x :: deleteOne p xs

/-- Mongo `delete_many`: remove every element matching the filter. -/
def deleteMany (p : α → Bool) (l : List α) : List α :=
  l.filter (fun x => !p x)

/-- A hex digit, as accepted by `bson.ObjectId`. -/
def isOidChar (c : Char) : Bool :=
  c.isDigit || (('a' ≤ c) && (c ≤ 'f')) || (('A' ≤ c) && (c ≤ 'F'))

/-- `ObjectId s` succeeds on a string exactly when it is a 24-character
hex string (the 12-byte form only applies to `bytes` input). -/
def isValidOid (s : String) : Bool :=
  s.length == 24 && s.toList.all isOidChar

/-- Python `str.lower` on the ASCII strings the role checks compare. -/
def pyLower (s : String) : String :=
  String.mk (s.toList.map Char.toLower)

/-- The message of the `bson.errors.InvalidId` exception. -/
def bsonInvalidIdMsg (s : String) : String :=
  "\x27" ++ s ++ "\x27 is not a valid ObjectId, it must be a 12-byte input or a 24-character hex string"

/-- Value of a string of decimal digits. -/
def digitsToNat (cs : List Char) : Nat :=
  cs.foldl (fun a c => a * 10 + (c.toNat - 48)) 0

/-- A Python float value as produced by `float  s`: a finite value (kept
as its exact rational — rounding to a double only matters for the sign
tests the handlers perform, and is folded into `pyLe0`), or one of the
IEEE specials, which `Rat` alone cannot represent. -/
inductive PyFloat where
  | finite (q : Rat)
  | inf
  | ninf
  | nan
deriving DecidableEq

/-- A positive literal whose exact value is at most `2 ^ (-1075)` rounds
to the double `+0.0` (round-to-nearest-even; the smallest subnormal is
`2 ^ (-1074)`). -/
def subnormalZeroThreshold : Rat := mkRat 1 (2 ^ 1075)

/-- Python `v <= 0` on a parsed float: false for NaN (IEEE comparisons
with NaN are false) and for `+inf`; true for `-inf`; for a finite
literal, true exactly when the rounded double is `<= 0.0`, i.e. the
exact value is at most the subnormal-rounding threshold.  (Overflow to
`±inf` never changes this verdict, so only the underflow threshold
appears.) -/
def pyLe0 : PyFloat → Bool
  | .finite q => decide (q ≤ subnormalZeroThreshold)
  | .inf => false
  | .ninf => true
  | .nan => false

/-- Modelled from the spec: the claim\x27s \x22strictly greater than zero\x22
test on a Python float under IEEE comparison semantics — false for NaN
and `-inf`, true for `+inf`, and the rounded-double comparison for
finite values.  The handler itself only ever tests `parsed_price <= 0`
(`pyLe0`); this spec-side comparison is used to state C7. -/
def pyGt0 : PyFloat → Bool
  | .finite q => decide (subnormalZeroThreshold < q)
  | .inf => true
  | .ninf => false
  | .nan => false

/-- Python `str.strip` on a character list: ASCII whitespace removed
from both ends (the non-ASCII whitespace CPython also strips is outside
the model). -/
def pyStrip (cs : List Char) : List Char :=
  ((cs.dropWhile Char.isWhitespace).reverse.dropWhile Char.isWhitespace).reverse

/-- Python `str.strip` as a string. -/
def pyTrim (s : String) : String :=
  String.mk (pyStrip s.toList)

/-- No two adjacent underscores in a literal. -/
def noDoubleUnderscore : List Char → Bool
  | c1 :: c2 :: rest => !(c1 == '_' && c2 == '_') && noDoubleUnderscore (c2 :: rest)
  | _ => true

/-- A Python `digitpart`: one or more ASCII digits with single
underscores strictly between digits (PEP 515), as accepted by
`float  s` since Python 3.6. -/
def isDigitPart (cs : List Char) : Bool :=
  match cs with
  | [] => false
  | c :: _ =>
      c.isDigit &&
      (match cs.getLast? with
       | some l => l.isDigit
       | none => false) &&
      cs.all (fun ch => ch.isDigit || ch == '_') &&
      noDoubleUnderscore cs

/-- Numeric value of a digitpart, underscores skipped. -/
def digitPartVal (cs : List Char) : Nat :=
  digitsToNat (cs.filter Char.isDigit)

/-- Number of digits of a digitpart, underscores skipped. -/
def digitPartLen (cs : List Char) : Nat :=
  (cs.filter Char.isDigit).length

/-- The mantissa `digitpart? [. digitpart?]` with at least one digit,
as in `float  s`: `5`, `5.`, `.5`, `1_000.25` are all accepted.
Returns the digit value `m` and the fraction length `s`, the mantissa
being `m / 10 ^ s` (kept as integers so the rational is assembled with
one `mkRat` at the end — the arithmetic then evaluates by kernel
reduction). -/
def parseMantissa? (cs : List Char) : Option (Nat × Nat) :=
  match cs.span (fun c => !(c == '.')) with
  | (ip, []) =>
      if isDigitPart ip then some (digitPartVal ip, 0) else none
  | (ip, _dot :: fp) =>
      if ip.isEmpty && fp.isEmpty then none
      else if (ip.isEmpty || isDigitPart ip) && (fp.isEmpty || isDigitPart fp) then
        some (digitPartVal ip * 10 ^ digitPartLen fp + digitPartVal fp,
          digitPartLen fp)
      else none

/-- The exponent after `e`/`E`: optional sign then a digitpart.
Returns whether it is negative, and its magnitude. -/
def parseExponent? (cs : List Char) : Option (Bool × Nat) :=
  match cs with
  | '+' :: rest => if isDigitPart rest then some (false, digitPartVal rest) else none
  | '-' :: rest => if isDigitPart rest then some (true, digitPartVal rest) else none
  | _ => if isDigitPart cs then some (false, digitPartVal cs) else none

/-- An unsigned numeric literal: mantissa with an optional scientific
exponent, assembled as a single exact rational. -/
def parseNumber? (cs : List Char) : Option Rat :=
  match cs.span (fun c => !(c == 'e' || c == 'E')) with
  | (mant, []) =>
      (parseMantissa? mant).map (fun ms => mkRat (ms.1 : Int) (10 ^ ms.2))
  | (mant, _e :: ecs) =>
      match parseMantissa? mant, parseExponent? ecs with
      | some ms, some (false, k) =>
          some (mkRat ((ms.1 * 10 ^ k : Nat) : Int) (10 ^ ms.2))
      | some ms, some (true, k) =>
          some (mkRat (ms.1 : Int) (10 ^ (ms.2 + k)))
      | _, _ => none

/-- Python `float  s` on a form string: surrounding whitespace stripped,
optional sign, then a decimal literal with optional fraction, scientific
exponent and underscore grouping, or the case-insensitive specials
`inf`, `infinity` and `nan` (`-nan` is also `nan`).  Non-ASCII digit
forms and non-ASCII whitespace, which CPython also maps, are outside the
model — the handlers receive ASCII form input. -/
def parsePyFloat? (s : String) : Option PyFloat :=
  let cs := pyStrip s.toList
  let (neg, body) :=
    match cs with
    | '-' :: rest => (true, rest)
    | '+' :: rest => (false, rest)
    | _ => (false, cs)
  let lb := String.mk (body.map Char.toLower)
  if lb == "inf" || lb == "infinity" then
    some (if neg then PyFloat.ninf else PyFloat.inf)
  else if lb == "nan" then
    some PyFloat.nan
  else
    (parseNumber? body).map
      (fun q => PyFloat.finite (if neg then -q else q))

/-- Gregorian leap year. -/
def isLeapYear (y : Nat) : Bool :=
  y % 4 == 0 && (y % 100 != 0 || y % 400 == 0)

/-- Days in a month of the proleptic Gregorian calendar. -/
def daysInMonth (y m : Nat) : Nat :=
  if m == 2 then (if isLeapYear y then 29 else 28)
  else if m == 4 || m == 6 || m == 9 || m == 11 then 30
  else 31

/-- Python `date.fromisoformat` on the strict `YYYY-MM-DD` form,
returning the stored `isoformat` string; `None` on failure (the source
swallows the `ValueError`). -/
def isoDate? (s : String) : Option String :=
  match s.toList with
  | [a, b, c, d, h1, e, f, h2, g, k] =>
      if h1 == '-' && h2 == '-' && [a, b, c, d, e, f, g, k].all Char.isDigit then
        let y := digitsToNat [a, b, c, d]
        let m := digitsToNat [e, f]
        let dy := digitsToNat [g, k]
        if 1 ≤ y && 1 ≤ m && m ≤ 12 && 1 ≤ dy && dy ≤ daysInMonth y m then
          some s
        else none
      else none
  | _ => none

/-- The `UserRole` str-enum of `app/enums.py`. -/
inductive Role where
  | USER
  | ADMIN
  | VENDOR
deriving DecidableEq

/-- The `.value` of a `UserRole` member, which is also what comparing the
member against a plain string compares against (str-mixin equality). -/
def Role.value : Role → String
  | .USER => "USER"
  | .ADMIN => "ADMIN"
  | .VENDOR => "VENDOR"

/-- Python `str  role` for a `UserRole` member: the enum `__str__`, i.e.
`UserRole.<NAME>`, not the bare value. -/
def Role.pyStr (r : Role) : String :=
  "UserRole." ++ r.value

/-- An authenticated principal as resolved by `get_current_user`:
a `User` (role USER or ADMIN) or a `VendorUser` (role VENDOR). -/
structure Principal where
  id : String
  role : Role
deriving DecidableEq

/-- A document of the `ewaste_items` collection, as written by
`create_item`. -/
structure ItemDoc where
  id : String
  name : String
  serialNumber : Option String
  categoryId : String
  departmentId : String
  purchaseDate : Option String
  weightKg : Option PyFloat
  price : Option PyFloat
  dispositionType : Option String
  notes : Option String
  photoPath : Option String
  reportedById : Option String
  reportedDate : Nat
  status : String
deriving DecidableEq

/-- A document of the `pickup_requests` collection.  `userId` holds the
string `str  item.reported_by_id` denormalized at creation time. -/
structure PickupRequestDoc where
  id : String
  itemId : String
  vendorId : String
  userId : String
  status : String
  requestedAt : Nat
  vendorNotes : Option String
  userNotes : Option String
  pickupLocation : Option String
  approvedAt : Option Nat
  rejectedAt : Option Nat
  pickupCoordinates : Option (Rat × Rat)
deriving DecidableEq

/-- A document of the `item_status_logs` collection. -/
structure StatusLogDoc where
  itemId : String
  fromStatus : String
  toStatus : String
  changedBy : String
  changedAt : Nat
  remarks : String
  userType : String
deriving DecidableEq

/-- A document of the `categories` collection (fields the workflow reads). -/
structure CategoryDoc where
  id : String
  name : String
deriving DecidableEq

/-- A document of the `departments` collection (fields the workflow reads). -/
structure DepartmentDoc where
  id : String
  name : String
deriving DecidableEq

/-- The backing store: the five collections the workflow touches. -/
structure DB where
  ewasteItems : List ItemDoc
  pickupRequests : List PickupRequestDoc
  itemStatusLogs : List StatusLogDoc
  categories : List CategoryDoc
  departments : List DepartmentDoc
deriving DecidableEq

/-- Outcome of a route handler: a success body, a 302 redirect, or an
`HTTPException` with status code and detail. -/
inductive Resp where
  | ok
  | redirect (url : String)
  | err (code : Nat) (detail : String)
deriving DecidableEq

/-- An exception escaping the body of a `try` block: either an
`HTTPException` the handler itself raised, or `bson` `InvalidId`. -/
inductive PyErr where
  | http (code : Nat) (detail : String)
  | invalidId (input : String)
deriving DecidableEq

/-- Python `str  e` of such an exception, as interpolated into the
`detail` of the wrapping 500 error. -/
def PyErr.pyMessage : PyErr → String
  | .http c d => toString c ++ ": " ++ d
  | .invalidId s => bsonInvalidIdMsg s

/-! ## POST /pickup/request/  —  `create_pickup_request` -/

/-- Body of the `try` block of `create_pickup_request`
(`app/routers/pickup_requests.py`): item lookup, REPORTED eligibility
check, duplicate-pending check, insert. -/
def createPickupRequestBody (db : DB) (vendor : Principal) (item_id : String)
    (vendor_notes : Option String) (now : Nat) (newId : String) :
    Except PyErr DB :=
  if !isValidOid item_id then .error (.invalidId item_id)
  else
    match db.ewasteItems.find? (fun it => it.id == item_id) with
    | none => .error (.http 404 "Item not found")
    | some item =>
      if item.status != "REPORTED" then
        .error (.http 400 "Item is not available for pickup")
      else
        match db.pickupRequests.find? (fun r =>
            r.itemId == item_id && r.vendorId == vendor.id && r.status == "pending") with
        | some _ => .error (.http 400 "You already have a pending request for this item")
        | none =>
          .ok { db with pickupRequests := db.pickupRequests ++
            [{ id := newId, itemId := item_id, vendorId := vendor.id,
               userId := pyStrOpt item.reportedById, status := "pending",
               requestedAt := now, vendorNotes := vendor_notes,
               userNotes := none, pickupLocation := none,
               approvedAt := none, rejectedAt := none,
               pickupCoordinates := none }] }

/-- `POST /pickup/request/` handler.  The role gate sits before the
`try` block; every exception the body raises — the handler\x27s own
`HTTPException`s included — is caught by `except Exception` and
re-raised as a 500 wrapping `str  e`. -/
def create_pickup_request (db : DB) (current_user : Option Principal)
    (item_id : String) (vendor_notes : Option String) (now : Nat)
    (newId : String) : Resp × DB :=
  match current_user with
  | none => (.err 403 "Only vendors can create pickup requests", db)
  | some u =>
    if u.role != Role.VENDOR && u.role.value != "vendor" then
      (.err 403 "Only vendors can create pickup requests", db)
    else
      match createPickupRequestBody db u item_id vendor_notes now newId with
      | .ok db2 => (.ok, db2)
      | .error e => (.err 500 ("Error creating pickup request: " ++ e.pyMessage), db)

/-! ## POST /pickup/approve/  —  `approve_pickup_request` -/

/-- Body of the `try` block of `approve_pickup_request`: request lookup,
ownership check against the denormalized `user_id`, pending check, then
the two updates (request → approved, item → COLLECTED).  The item\x27s own
status is never consulted. -/
def approvePickupRequestBody (db : DB) (user : Principal) (request_id : String)
    (user_notes pickup_location : Option String)
    (latitude longitude : Option Rat) (now : Nat) : Except PyErr DB :=
  if !isValidOid request_id then .error (.invalidId request_id)
  else
    match db.pickupRequests.find? (fun r => r.id == request_id) with
    | none => .error (.http 404 "Pickup request not found")
    | some pr =>
      if pr.userId != user.id then
        .error (.http 403 "You can only approve requests for your own items")
      else if pr.status != "pending" then
        .error (.http 400 "Request is not pending")
      else
        let withCoords : PickupRequestDoc → PickupRequestDoc :=
          match latitude, longitude with
          | some la, some lo => fun r => { r with pickupCoordinates := some (la, lo) }
          | _, _ => fun r => r
        let newReqs :=
          updateOne (fun r => r.id == request_id)
            (fun r => withCoords
              { r with
                  status := "approved"
                  approvedAt := some now
                  userNotes := user_notes
                  pickupLocation := pickup_location })
            db.pickupRequests
        let db2 := { db with pickupRequests := newReqs }
        let newItems :=
          updateOne (fun it => it.id == pr.itemId)
            (fun it => { it with status := "COLLECTED" }) db2.ewasteItems
        .ok { db2 with ewasteItems := newItems }

/-- `POST /pickup/approve/` handler, with the same catch-all 500
wrapping as `create_pickup_request`. -/
def approve_pickup_request (db : DB) (current_user : Option Principal)
    (request_id : String) (user_notes pickup_location : Option String)
    (latitude longitude : Option Rat) (now : Nat) : Resp × DB :=
  match current_user with
  | none => (.err 403 "Only users can approve pickup requests", db)
  | some u =>
    if u.role != Role.USER && u.role.value != "user" then
      (.err 403 "Only users can approve pickup requests", db)
    else
      match approvePickupRequestBody db u request_id user_notes pickup_location
          latitude longitude now with
      | .ok db2 => (.ok, db2)
      | .error e => (.err 500 ("Error approving request: " ++ e.pyMessage), db)

/-! ## POST /pickup/reject/  —  `reject_pickup_request` -/

/-- Body of the `try` block of `reject_pickup_request`: same lookup and
checks as approve, then a single request update; the item collection is
never written. -/
def rejectPickupRequestBody (db : DB) (user : Principal) (request_id : String)
    (user_notes : Option String) (now : Nat) : Except PyErr DB :=
  if !isValidOid request_id then .error (.invalidId request_id)
  else
    match db.pickupRequests.find? (fun r => r.id == request_id) with
    | none => .error (.http 404 "Pickup request not found")
    | some pr =>
      if pr.userId != user.id then
        .error (.http 403 "You can only reject requests for your own items")
      else if pr.status != "pending" then
        .error (.http 400 "Request is not pending")
      else
        let newReqs :=
          updateOne (fun r => r.id == request_id)
            (fun r =>
              { r with
                  status := "rejected"
                  rejectedAt := some now
                  userNotes := user_notes })
            db.pickupRequests
        .ok { db with pickupRequests := newReqs }

/-- `POST /pickup/reject/` handler, with the catch-all 500 wrapping. -/
def reject_pickup_request (db : DB) (current_user : Option Principal)
    (request_id : String) (user_notes : Option String) (now : Nat) :
    Resp × DB :=
  match current_user with
  | none => (.err 403 "Only users can reject pickup requests", db)
  | some u =>
    if u.role != Role.USER && u.role.value != "user" then
      (.err 403 "Only users can reject pickup requests", db)
    else
      match rejectPickupRequestBody db u request_id user_notes now with
      | .ok db2 => (.ok, db2)
      | .error e => (.err 500 ("Error rejecting request: " ++ e.pyMessage), db)

/-! ## POST /items/new  —  `create_item` -/

/-- `POST /items/new` handler (`app/routers/items.py`).  Its outer `try`
re-raises `HTTPException` unchanged, so validation errors reach the
caller with their own status codes.  The vendor gate compares
`str  role .lower` — i.e. `userrole.vendor` — against `vendor`, so it
never fires for the enum-valued `role` field.  `photo_path` is the
result of the upload collaborator (`None` when absent or failed). -/
def create_item (db : DB) (current_user : Option Principal)
    (name : String) (serial_number : Option String)
    (category_id department_id : String)
    (purchase_date weight_kg price : Option String)
    (disposition_type notes photo_path : Option String)
    (now : Nat) (newId : String) : Resp × DB :=
  match current_user with
  | none => (.redirect "/auth/login", db)
  | some u =>
    if pyLower u.role.pyStr == "vendor" then
      (.redirect "/items/", db)
    else if !(disposition_type == some "selling" || disposition_type == some "disposed") then
      (.err 400 "Please select whether you want to sell or dispose of this item", db)
    else if !isValidOid category_id then
      (.err 400 ("Invalid category or department ID: " ++ bsonInvalidIdMsg category_id), db)
    else if !isValidOid department_id then
      (.err 400 ("Invalid category or department ID: " ++ bsonInvalidIdMsg department_id), db)
    else
      let parsedPurchaseDate := purchase_date.bind isoDate?
      let parsedWeight := weight_kg.bind (fun s =>
        if pyTrim s == "" then none else parsePyFloat? s)
      let priceStep : Except (Nat × String) (Option PyFloat) :=
        if disposition_type == some "selling" then
          match price with
          | none => .error (400, "Please enter a selling price for items you want to sell")
          | some ps =>
            if pyTrim ps == "" then
              .error (400, "Please enter a selling price for items you want to sell")
            else
              match parsePyFloat? ps with
              | none => .error (400, "Please enter a valid selling price (numbers only)")
              | some v =>
                if pyLe0 v then .error (400, "Selling price must be greater than 0")
                else .ok (some v)
        else .ok none
      match priceStep with
      | .error (c, d) => (.err c d, db)
      | .ok parsedPrice =>
        (.redirect "/items/",
         { db with ewasteItems := db.ewasteItems ++
           [{ id := newId, name := name, serialNumber := serial_number,
              categoryId := category_id, departmentId := department_id,
              purchaseDate := parsedPurchaseDate, weightKg := parsedWeight,
              price := parsedPrice, dispositionType := disposition_type,
              notes := notes, photoPath := photo_path,
              reportedById := some u.id, reportedDate := now,
              status := "REPORTED" }] })

/-! ## POST /items/delete/  —  `delete_item` -/

/-- `POST /items/delete/` handler.  An item whose `reported_by_id` is
missing, null or empty is first stamped with the caller as owner, after
which the ownership check necessarily passes; then the item is deleted
and its pickup requests are cascaded.  The vendor escape hatch compares
the enum role against the plain string `VENDOR` (str-mixin equality). -/
def delete_item (db : DB) (current_user : Option Principal)
    (item_id : String) : Resp × DB :=
  match current_user with
  | none => (.err 401 "Not authenticated", db)
  | some u =>
    if !isValidOid item_id then (.err 400 "Invalid item id", db)
    else
      match db.ewasteItems.find? (fun it => it.id == item_id) with
      | none => (.err 404 "Item not found", db)
      | some item =>
        let ownerFalsy :=
          match item.reportedById with
          | none => true
          | some s => s == ""
        let ownedItems :=
          updateOne (fun it => it.id == item_id)
            (fun it => { it with reportedById := some u.id }) db.ewasteItems
        let db1 :=
          if ownerFalsy then { db with ewasteItems := ownedItems } else db
        let itemOwnerId := if ownerFalsy then u.id else item.reportedById.getD ""
        let doDelete : DB → Resp × DB := fun d =>
          if !d.ewasteItems.any (fun it => it.id == item_id) then
            (.err 404 "Item not found", d)
          else
            let remainingItems := deleteOne (fun it => it.id == item_id) d.ewasteItems
            let d2 := { d with ewasteItems := remainingItems }
            let remainingReqs := deleteMany (fun r => r.itemId == item_id) d2.pickupRequests
            (.ok, { d2 with pickupRequests := remainingReqs })
        if u.role.value == "VENDOR" && itemOwnerId != u.id then
          match db1.pickupRequests.find? (fun r =>
              r.itemId == item_id && r.vendorId == u.id && r.status == "approved") with
          | some _ => doDelete db1
          | none =>
            (.err 403 "You can only delete items you own or have approved pickup requests for", db1)
        else if itemOwnerId != u.id then
          (.err 403 "You can only delete your own items", db1)
        else doDelete db1

/-! ## POST /items/  /status  —  `update_item_status` -/

/-- The `valid_statuses` list of `update_item_status`. -/
def validStatuses : List String :=
  ["COLLECTED", "IN_STORAGE", "SENT_TO_VENDOR", "RECYCLED", "DISPOSED"]

/-- The three-way duck-typed vendor test of `update_item_status`
(`str  role .lower`, enum comparison, `.value.lower`). -/
def isVendorDuck (r : Role) : Bool :=
  pyLower r.pyStr == "vendor" || r == Role.VENDOR || pyLower r.value == "vendor"

/-- `POST /items/../status` handler: role gate, target whitelist, active
claim lookup, item update, request bridging (remarks always copied into
`vendor_notes`; status `completed` only for target COLLECTED), and one
log append.  No comparison against the item\x27s current status is made. -/
def update_item_status (db : DB) (current_user : Option Principal)
    (item_id status remarks : String) (now : Nat) : Resp × DB :=
  match current_user with
  | none => (.err 401 "Not authenticated", db)
  | some u =>
    if !isVendorDuck u.role then
      (.err 403 "Only vendors can update item status", db)
    else if !validStatuses.contains status then
      (.err 400 ("Invalid status. Must be one of: " ++ String.intercalate ", " validStatuses), db)
    else if !isValidOid item_id then
      (.err 400 "Invalid item id", db)
    else
      match db.pickupRequests.find? (fun r =>
          r.itemId == item_id && r.vendorId == u.id &&
            (r.status == "approved" || r.status == "completed")) with
      | none => (.err 403 "You don\x27t have an approved pickup request for this item", db)
      | some approvedRequest =>
        match db.ewasteItems.find? (fun it => it.id == item_id) with
        | none => (.err 404 "Item not found", db)
        | some itemDoc =>
          let currentItemStatus := itemDoc.status
          let updatedItems :=
            updateOne (fun it => it.id == item_id)
              (fun it => { it with status := status }) db.ewasteItems
          let db1 := { db with ewasteItems := updatedItems }
          if !db.ewasteItems.any (fun it => it.id == item_id) then
            (.err 404 "Item not found during update", db1)
          else
            let updatedReqs :=
              updateOne (fun r => r.id == approvedRequest.id)
                (fun r =>
                  let r1 := if remarks != "" then { r with vendorNotes := some remarks } else r
                  if status == "COLLECTED" then { r1 with status := "completed" } else r1)
                db1.pickupRequests
            let db2 :=
              if remarks != "" || status == "COLLECTED" then
                { db1 with pickupRequests := updatedReqs }
              else db1
            let newLog : StatusLogDoc :=
              { itemId := item_id, fromStatus := currentItemStatus, toStatus := status,
                changedBy := u.id, changedAt := now, remarks := remarks,
                userType := "vendor" }
            (.ok, { db2 with itemStatusLogs := db2.itemStatusLogs ++ [newLog] })

/-! ## Lemmas about the collection primitives -/

theorem find?_updateOne_map {α : Type} {q : α → Bool} {f : α → α}
    (hf : ∀ x, q x = true → q (f x) = true) (l : List α)
    (h : (l.find? q).isSome = true) :
    (updateOne q f l).find? q = (l.find? q).map f := by
  induction l with
  | nil => simp at h
  | cons x xs ih =>
    by_cases hx : q x = true
    · simp [updateOne, hx, List.find?_cons_of_pos, hf x hx]
    · have hx' : q x = false := by simpa using hx
      have h' : (xs.find? q).isSome = true := by
        simpa [List.find?_cons, hx'] using h
      simp [updateOne, hx', List.find?_cons, ih h']

theorem any_eq_true_of_find?_eq_some {α : Type} {q : α → Bool} {l : List α}
    {a : α} (h : l.find? q = some a) : l.any q = true := by
  exact List.any_eq_true.mpr ⟨a, List.mem_of_find?_eq_some h, List.find?_some h⟩

theorem any_updateOne {α : Type} {q : α → Bool} {f : α → α}
    (hf : ∀ x, q (f x) = q x) (l : List α) :
    (updateOne q f l).any q = l.any q := by
  induction l with
  | nil => rfl
  | cons x xs ih =>
    by_cases hx : q x = true
    · simp [updateOne, hx, hf]
    · have hx' : q x = false := by simpa using hx
      simp [updateOne, hx', hf, ih]

theorem deleteOne_updateOne {α : Type} {q : α → Bool} {f : α → α}
    (hf : ∀ x, q (f x) = q x) (l : List α) :
    deleteOne q (updateOne q f l) = deleteOne q l := by
  induction l with
  | nil => rfl
  | cons x xs ih =>
    by_cases hx : q x = true
    · simp [updateOne, deleteOne, hx, hf]
    · have hx' : q x = false := by simpa using hx
      simp [updateOne, deleteOne, hx', hf, ih]

theorem append_singleton_ne {α : Type} (l : List α) (x : α) :
    l ++ [x] ≠ l := by
  intro h
  have := congrArg List.length h
  simp at this

theorem find?_isSome_of_mem {α : Type} {p : α → Bool} {l : List α} {a : α}
    (ha : a ∈ l) (hp : p a = true) : (l.find? p).isSome = true := by
  induction l with
  | nil => cases ha
  | cons x xs ih =>
    rcases List.mem_cons.mp ha with rfl | ha'
    · simp [List.find?_cons, hp]
    · by_cases hx : p x = true
      · simp [List.find?_cons, hx]
      · have hx' : p x = false := by simpa using hx
        simp [List.find?_cons, hx', ih ha']

theorem pyLower_pyStr_ne_vendor (r : Role) :
    (pyLower r.pyStr == "vendor") = false := by
  cases r <;> rfl

/-! ## Concrete fixtures for counterexamples and witnesses -/

def oidItemX : String := "aaaaaaaaaaaaaaaaaaaaaaaa"
def oidItemY : String := "aaaaaaaaaaaaaaaaaaaaaab1"
def oidItemZ : String := "aaaaaaaaaaaaaaaaaaaaaab2"
def oidItemW : String := "aaaaaaaaaaaaaaaaaaaaaab3"
def oidItemV : String := "aaaaaaaaaaaaaaaaaaaaaab4"
def oidReqA : String := "bbbbbbbbbbbbbbbbbbbbbbbb"
def oidReqB : String := "bbbbbbbbbbbbbbbbbbbbbbb1"
def oidReqC : String := "bbbbbbbbbbbbbbbbbbbbbbb2"
def oidReqD : String := "bbbbbbbbbbbbbbbbbbbbbbb3"
def oidReqE : String := "bbbbbbbbbbbbbbbbbbbbbbb4"
def oidReqF : String := "bbbbbbbbbbbbbbbbbbbbbbb5"
def oidReqG : String := "bbbbbbbbbbbbbbbbbbbbbbb6"
def oidReqH : String := "bbbbbbbbbbbbbbbbbbbbbbb7"
def oidItemU : String := "aaaaaaaaaaaaaaaaaaaaaab5"
def oidItemT : String := "aaaaaaaaaaaaaaaaaaaaaab6"
def oidItemS : String := "aaaaaaaaaaaaaaaaaaaaaab7"
def oidItemP : String := "aaaaaaaaaaaaaaaaaaaaaab8"
def oidItemQ : String := "aaaaaaaaaaaaaaaaaaaaaab9"
def oidItemR : String := "aaaaaaaaaaaaaaaaaaaaaac1"
def oidItemN : String := "aaaaaaaaaaaaaaaaaaaaaac2"
def oidReqI : String := "bbbbbbbbbbbbbbbbbbbbbbb8"
def oidReqJ : String := "bbbbbbbbbbbbbbbbbbbbbbb9"
def oidUser1 : String := "111111111111111111111111"
def oidVendor1 : String := "ddddddddddddddddddddddd1"
def oidVendor2 : String := "ddddddddddddddddddddddd2"
def oidCat1 : String := "eeeeeeeeeeeeeeeeeeeeeee1"
def oidDep1 : String := "eeeeeeeeeeeeeeeeeeeeeee2"

def user1 : Principal := { id := oidUser1, role := Role.USER }
def vendor1 : Principal := { id := oidVendor1, role := Role.VENDOR }
def vendor2 : Principal := { id := oidVendor2, role := Role.VENDOR }

/-- A stored item document with the given id, reporter and status. -/
def mkItem (id : String) (owner : Option String) (status : String) : ItemDoc :=
  { id := id, name := "Old Laptop", serialNumber := none,
    categoryId := oidCat1, departmentId := oidDep1, purchaseDate := none,
    weightKg := none, price := none, dispositionType := some "disposed",
    notes := none, photoPath := none, reportedById := owner,
    reportedDate := 0, status := status }

/-- A stored pending pickup request document. -/
def mkPending (id itemId vendorId userId : String) : PickupRequestDoc :=
  { id := id, itemId := itemId, vendorId := vendorId, userId := userId,
    status := "pending", requestedAt := 0, vendorNotes := none,
    userNotes := none, pickupLocation := none, approvedAt := none,
    rejectedAt := none, pickupCoordinates := none }

/-- An empty store. -/
def emptyDB : DB :=
  { ewasteItems := [], pickupRequests := [], itemStatusLogs := [],
    categories := [], departments := [] }

/-! ## C1 — at most one active claim per item -/

/-- Store for the C1 scenario: item X is REPORTED and both vendors hold
pending requests for it. -/
def dbC1 : DB :=
  { emptyDB with
      ewasteItems := [mkItem oidItemX (some oidUser1) "REPORTED"],
      pickupRequests := [mkPending oidReqA oidItemX oidVendor1 oidUser1,
                         mkPending oidReqB oidItemX oidVendor2 oidUser1] }

/-- C1 is false on the code: after the reporting user approves vendor 1\x27s
request (item X becomes COLLECTED), approving vendor 2\x27s still-pending
request does not fail with InvalidState — it succeeds, and item X ends up
with two requests whose status is in the approved/completed set. -/
theorem C1_counterexample :
    (approve_pickup_request
        (approve_pickup_request dbC1 (some user1) oidReqA none none none none 10).2
        (some user1) oidReqB none none none none 20).1 = Resp.ok ∧
    ((approve_pickup_request
        (approve_pickup_request dbC1 (some user1) oidReqA none none none none 10).2
        (some user1) oidReqB none none none none 20).2.pickupRequests.filter
      (fun r => r.itemId == oidItemX &&
        (r.status == "approved" || r.status == "completed"))).length = 2 := by
  decide

/-- Reduction of the approve body on its success path (no coordinates
supplied). -/
theorem approveBody_success
    (db : DB) (u : Principal) (rid : String) (pr : PickupRequestDoc)
    (user_notes pickup_location : Option String) (now : Nat)
    (hoid : isValidOid rid = true)
    (hfind : db.pickupRequests.find? (fun r => r.id == rid) = some pr)
    (howner : pr.userId = u.id)
    (hpending : pr.status = "pending") :
    approvePickupRequestBody db u rid user_notes pickup_location none none now =
      Except.ok { db with
        pickupRequests := updateOne (fun r => r.id == rid)
          (fun r =>
            { r with
                status := "approved"
                approvedAt := some now
                userNotes := user_notes
                pickupLocation := pickup_location })
          db.pickupRequests,
        ewasteItems := updateOne (fun it => it.id == pr.itemId)
          (fun it => { it with status := "COLLECTED" }) db.ewasteItems } := by
  simp [approvePickupRequestBody, hoid, hfind, howner, hpending]

/-- C1 (amended): `approve_pickup_request` checks only that the caller is
the request\x27s denormalized reporting user and that the request itself is
still pending; the referenced item\x27s status is never consulted, so a
pending request whose item has already left the REPORTED state is still
approved successfully and becomes a second active claim. -/
theorem C1_amended_approve_ignores_item_status
    (db : DB) (u : Principal) (rid : String) (pr : PickupRequestDoc)
    (user_notes pickup_location : Option String) (now : Nat)
    (hrole : u.role = Role.USER)
    (hoid : isValidOid rid = true)
    (hfind : db.pickupRequests.find? (fun r => r.id == rid) = some pr)
    (howner : pr.userId = u.id)
    (hpending : pr.status = "pending") :
    (approve_pickup_request db (some u) rid user_notes pickup_location none none now).1
        = Resp.ok ∧
    ((approve_pickup_request db (some u) rid user_notes pickup_location none none now).2.pickupRequests.find?
        (fun r => r.id == rid)) =
      some
        { pr with
            status := "approved"
            approvedAt := some now
            userNotes := user_notes
            pickupLocation := pickup_location } := by
  have hb := approveBody_success db u rid pr user_notes pickup_location now
    hoid hfind howner hpending
  have hsome : (db.pickupRequests.find? (fun r => r.id == rid)).isSome = true := by
    rw [hfind]; rfl
  refine ⟨?_, ?_⟩
  · simp [approve_pickup_request, hrole, hb]
  · simp [approve_pickup_request, hrole, hb]
    rw [find?_updateOne_map]
    · rw [hfind]; rfl
    · exact fun x hx => hx
    · exact hsome

/-- Witness store for the amended C1: item X is already COLLECTED while
vendor 2\x27s request is still pending. -/
def dbC1w : DB :=
  { emptyDB with
      ewasteItems := [mkItem oidItemX (some oidUser1) "COLLECTED"],
      pickupRequests := [mkPending oidReqB oidItemX oidVendor2 oidUser1] }

theorem C1_amended_witness :
    isValidOid oidReqB = true ∧
    ((approve_pickup_request dbC1w (some user1) oidReqB none none none none 7).1
        = Resp.ok ∧
     ((approve_pickup_request dbC1w (some user1) oidReqB none none none none 7).2.pickupRequests.find?
        (fun r => r.id == oidReqB)) =
       some
         { mkPending oidReqB oidItemX oidVendor2 oidUser1 with
             status := "approved"
             approvedAt := some 7
             userNotes := none
             pickupLocation := none }) :=
  ⟨by decide,
   C1_amended_approve_ignores_item_status dbC1w user1 oidReqB
     (mkPending oidReqB oidItemX oidVendor2 oidUser1) none none 7 rfl (by decide)
     (by decide) rfl rfl⟩

/-! ## C2 — error contract of createRequest -/

/-- C2 scenario stores: item absent; item present but COLLECTED; item
REPORTED with the same vendor already pending. -/
def dbC2b : DB :=
  { emptyDB with ewasteItems := [mkItem oidItemX (some oidUser1) "COLLECTED"] }

def dbC2c : DB :=
  { emptyDB with
      ewasteItems := [mkItem oidItemX (some oidUser1) "REPORTED"],
      pickupRequests := [mkPending oidReqA oidItemX oidVendor1 oidUser1] }

/-- C2: the handler detects all three failure conditions in the claimed
order, but each deliberately raised `HTTPException` is caught by the
surrounding `except Exception` and re-raised as a generic 500, so the
caller never sees the NotFound / InvalidState / Conflict kinds. -/
theorem C2_failures_wrapped_as_500 :
    (create_pickup_request emptyDB (some vendor1) oidItemX none 0 oidReqC).1
        = Resp.err 500 "Error creating pickup request: 404: Item not found" ∧
    (create_pickup_request dbC2b (some vendor1) oidItemX none 0 oidReqC).1
        = Resp.err 500 "Error creating pickup request: 400: Item is not available for pickup" ∧
    (create_pickup_request dbC2c (some vendor1) oidItemX none 0 oidReqC).1
        = Resp.err 500 "Error creating pickup request: 400: You already have a pending request for this item" := by
  decide

/-! ## C3 — approve postcondition -/

/-- C3: for a pending request whose denormalized reporting user is the
caller, approve succeeds, the request becomes approved with approved_at,
notes and location stamped, and the referenced item becomes COLLECTED. -/
theorem C3_approve_postcondition
    (db : DB) (u : Principal) (rid : String) (pr : PickupRequestDoc)
    (it : ItemDoc) (user_notes pickup_location : Option String) (now : Nat)
    (hrole : u.role = Role.USER)
    (hoid : isValidOid rid = true)
    (hfind : db.pickupRequests.find? (fun r => r.id == rid) = some pr)
    (howner : pr.userId = u.id)
    (hpending : pr.status = "pending")
    (hitem : db.ewasteItems.find? (fun x => x.id == pr.itemId) = some it) :
    (approve_pickup_request db (some u) rid user_notes pickup_location none none now).1
        = Resp.ok ∧
    ((approve_pickup_request db (some u) rid user_notes pickup_location none none now).2.pickupRequests.find?
        (fun r => r.id == rid)) =
      some
        { pr with
            status := "approved"
            approvedAt := some now
            userNotes := user_notes
            pickupLocation := pickup_location } ∧
    ((approve_pickup_request db (some u) rid user_notes pickup_location none none now).2.ewasteItems.find?
        (fun x => x.id == pr.itemId)) =
      some { it with status := "COLLECTED" } := by
  have hb := approveBody_success db u rid pr user_notes pickup_location now
    hoid hfind howner hpending
  have hsome : (db.pickupRequests.find? (fun r => r.id == rid)).isSome = true := by
    rw [hfind]; rfl
  have hsome2 : (db.ewasteItems.find? (fun x => x.id == pr.itemId)).isSome = true := by
    rw [hitem]; rfl
  refine ⟨?_, ?_, ?_⟩
  · simp [approve_pickup_request, hrole, hb]
  · simp [approve_pickup_request, hrole, hb]
    rw [find?_updateOne_map]
    · rw [hfind]; rfl
    · exact fun x hx => hx
    · exact hsome
  · simp [approve_pickup_request, hrole, hb]
    rw [find?_updateOne_map]
    · rw [hitem]; rfl
    · exact fun x hx => hx
    · exact hsome2

/-- Witness store for C3: a REPORTED item with one pending request. -/
def dbC3w : DB :=
  { emptyDB with
      ewasteItems := [mkItem oidItemY (some oidUser1) "REPORTED"],
      pickupRequests := [mkPending oidReqC oidItemY oidVendor1 oidUser1] }

theorem C3_witness :
    isValidOid oidReqC = true ∧
    ((approve_pickup_request dbC3w (some user1) oidReqC (some "ok") (some "dock 4") none none 11).1
        = Resp.ok ∧
     ((approve_pickup_request dbC3w (some user1) oidReqC (some "ok") (some "dock 4") none none 11).2.pickupRequests.find?
        (fun r => r.id == oidReqC)) =
       some
         { mkPending oidReqC oidItemY oidVendor1 oidUser1 with
             status := "approved"
             approvedAt := some 11
             userNotes := some "ok"
             pickupLocation := some "dock 4" } ∧
     ((approve_pickup_request dbC3w (some user1) oidReqC (some "ok") (some "dock 4") none none 11).2.ewasteItems.find?
        (fun x => x.id == (mkPending oidReqC oidItemY oidVendor1 oidUser1).itemId)) =
       some { mkItem oidItemY (some oidUser1) "REPORTED" with status := "COLLECTED" }) :=
  ⟨by decide,
   C3_approve_postcondition dbC3w user1 oidReqC
     (mkPending oidReqC oidItemY oidVendor1 oidUser1)
     (mkItem oidItemY (some oidUser1) "REPORTED") (some "ok") (some "dock 4") 11
     rfl (by decide) (by decide) rfl rfl (by decide)⟩

/-! ## C4 — reject frame condition -/

/-- C4: rejecting a pending request by the item\x27s reporting user marks
the request rejected with rejected_at stamped and leaves the item
collection — in particular the item\x27s status — completely unchanged. -/
theorem C4_reject_frame
    (db : DB) (u : Principal) (rid : String) (pr : PickupRequestDoc)
    (user_notes : Option String) (now : Nat)
    (hrole : u.role = Role.USER)
    (hoid : isValidOid rid = true)
    (hfind : db.pickupRequests.find? (fun r => r.id == rid) = some pr)
    (howner : pr.userId = u.id)
    (hpending : pr.status = "pending") :
    (reject_pickup_request db (some u) rid user_notes now).1 = Resp.ok ∧
    ((reject_pickup_request db (some u) rid user_notes now).2.pickupRequests.find?
        (fun r => r.id == rid)) =
      some
        { pr with
            status := "rejected"
            rejectedAt := some now
            userNotes := user_notes } ∧
    (reject_pickup_request db (some u) rid user_notes now).2.ewasteItems
      = db.ewasteItems := by
  have hsome : (db.pickupRequests.find? (fun r => r.id == rid)).isSome = true := by
    rw [hfind]; rfl
  have hueq : (pr.userId != u.id) = false := by simp [howner]
  refine ⟨?_, ?_, ?_⟩
  · simp [reject_pickup_request, rejectPickupRequestBody, hrole, hoid, hfind, hueq, hpending]
  · simp [reject_pickup_request, rejectPickupRequestBody, hrole, hoid, hfind, hueq, hpending]
    rw [find?_updateOne_map]
    · rw [hfind]; rfl
    · exact fun x hx => hx
    · exact hsome
  · simp [reject_pickup_request, rejectPickupRequestBody, hrole, hoid, hfind, hueq, hpending]

/-- Witness store for C4: a REPORTED item with one pending request from
vendor 2. -/
def dbC4w : DB :=
  { emptyDB with
      ewasteItems := [mkItem oidItemZ (some oidUser1) "REPORTED"],
      pickupRequests := [mkPending oidReqD oidItemZ oidVendor2 oidUser1] }

theorem C4_witness :
    isValidOid oidReqD = true ∧
    ((reject_pickup_request dbC4w (some user1) oidReqD (some "no") 13).1 = Resp.ok ∧
     ((reject_pickup_request dbC4w (some user1) oidReqD (some "no") 13).2.pickupRequests.find?
        (fun r => r.id == oidReqD)) =
       some
         { mkPending oidReqD oidItemZ oidVendor2 oidUser1 with
             status := "rejected"
             rejectedAt := some 13
             userNotes := some "no" } ∧
     (reject_pickup_request dbC4w (some user1) oidReqD (some "no") 13).2.ewasteItems
       = dbC4w.ewasteItems) :=
  ⟨by decide,
   C4_reject_frame dbC4w user1 oidReqD
     (mkPending oidReqD oidItemZ oidVendor2 oidUser1) (some "no") 13
     rfl (by decide) (by decide) rfl rfl⟩

/-! ## C5, C6, C10 — advanceItemStatus -/

/-- Reduction of `update_item_status` on its success path: the caller is
a vendor with an active claim on an existing item and the target status
is whitelisted. -/
theorem update_item_status_success
    (db : DB) (u : Principal) (item_id target remarks : String)
    (ar : PickupRequestDoc) (it : ItemDoc) (now : Nat)
    (hrole : u.role = Role.VENDOR)
    (hoid : isValidOid item_id = true)
    (har : db.pickupRequests.find? (fun r =>
        r.itemId == item_id && r.vendorId == u.id &&
          (r.status == "approved" || r.status == "completed")) = some ar)
    (hitem : db.ewasteItems.find? (fun x => x.id == item_id) = some it)
    (htgt : validStatuses.contains target = true) :
    update_item_status db (some u) item_id target remarks now =
      (Resp.ok,
       { db with
           ewasteItems := updateOne (fun x => x.id == item_id)
             (fun x => { x with status := target }) db.ewasteItems,
           pickupRequests :=
             if remarks != "" || target == "COLLECTED" then
               updateOne (fun r => r.id == ar.id)
                 (fun r =>
                   let r1 := if remarks != "" then { r with vendorNotes := some remarks } else r
                   if target == "COLLECTED" then { r1 with status := "completed" } else r1)
                 db.pickupRequests
             else db.pickupRequests,
           itemStatusLogs := db.itemStatusLogs ++
             [{ itemId := item_id, fromStatus := it.status, toStatus := target,
                changedBy := u.id, changedAt := now, remarks := remarks,
                userType := "vendor" }] }) := by
  have hvend : isVendorDuck Role.VENDOR = true := by decide
  have htgtP : target ∈ validStatuses := by simpa using htgt
  have hnot : ¬∀ x ∈ db.ewasteItems, ¬x.id = item_id := by
    have hmem := List.mem_of_find?_eq_some hitem
    have hid : it.id = item_id := by simpa using List.find?_some hitem
    exact fun hall => hall it hmem hid
  by_cases hc : ¬remarks = "" ∨ target = "COLLECTED"
  · simp [update_item_status, hrole, hvend, hoid, har, hitem, htgtP, hnot, hc]
  · simp [update_item_status, hrole, hvend, hoid, har, hitem, htgtP, hnot, hc]

/-- C5: for a vendor holding an approved or completed claim on an
existing item, advancing the status fails with a 400 Validation error for
any target outside the five allowed statuses (in particular REPORTED is
never reachable); on success the item\x27s status becomes the target,
exactly one log entry is appended whose from/to statuses are the item\x27s
status before and after, and target COLLECTED completes the claim. -/
theorem C5_advance_status_contract
    (db : DB) (u : Principal) (item_id target remarks : String)
    (ar : PickupRequestDoc) (it : ItemDoc) (now : Nat)
    (hrole : u.role = Role.VENDOR)
    (hoid : isValidOid item_id = true)
    (har : db.pickupRequests.find? (fun r =>
        r.itemId == item_id && r.vendorId == u.id &&
          (r.status == "approved" || r.status == "completed")) = some ar)
    (hitem : db.ewasteItems.find? (fun x => x.id == item_id) = some it) :
    (validStatuses.contains target = false →
      update_item_status db (some u) item_id target remarks now =
        (Resp.err 400 "Invalid status. Must be one of: COLLECTED, IN_STORAGE, SENT_TO_VENDOR, RECYCLED, DISPOSED", db)) ∧
    (validStatuses.contains target = true →
      (update_item_status db (some u) item_id target remarks now).1 = Resp.ok ∧
      ((update_item_status db (some u) item_id target remarks now).2.ewasteItems.find?
          (fun x => x.id == item_id)) = some { it with status := target } ∧
      (update_item_status db (some u) item_id target remarks now).2.itemStatusLogs =
        db.itemStatusLogs ++
          [{ itemId := item_id, fromStatus := it.status, toStatus := target,
             changedBy := u.id, changedAt := now, remarks := remarks,
             userType := "vendor" }] ∧
      (target = "COLLECTED" →
        ((update_item_status db (some u) item_id target remarks now).2.pickupRequests.find?
            (fun r => r.id == ar.id)).map (fun r => r.status) = some "completed")) := by
  have hvend : isVendorDuck Role.VENDOR = true := by decide
  have hsome2 : (db.ewasteItems.find? (fun x => x.id == item_id)).isSome = true := by
    rw [hitem]; rfl
  refine ⟨?_, ?_⟩
  · intro hbad
    have hbadP : ¬target ∈ validStatuses := by
      intro hmem
      rw [show validStatuses.contains target = true by simpa using hmem] at hbad
      cases hbad
    simp [update_item_status, hrole, hvend, hoid, hbadP]
    decide
  · intro htgt
    have hs := update_item_status_success db u item_id target remarks ar it now
      hrole hoid har hitem htgt
    refine ⟨?_, ?_, ?_, ?_⟩
    · rw [hs]
    · rw [hs]
      show (updateOne (fun x => x.id == item_id)
          (fun x => { x with status := target }) db.ewasteItems).find?
          (fun x => x.id == item_id) = some { it with status := target }
      rw [find?_updateOne_map]
      · rw [hitem]; rfl
      · exact fun x hx => hx
      · exact hsome2
    · rw [hs]
    · intro htc
      subst htc
      rw [hs]
      have h3some : (db.pickupRequests.find? (fun r => r.id == ar.id)).isSome = true :=
        find?_isSome_of_mem (List.mem_of_find?_eq_some har) (by simp)
      obtain ⟨r3, hr3⟩ := Option.isSome_iff_exists.mp h3some
      by_cases hrr : remarks = ""
      · subst hrr
        show ((updateOne (fun r => r.id == ar.id) _ db.pickupRequests).find?
            (fun r => r.id == ar.id)).map (fun r => r.status) = some "completed"
        rw [find?_updateOne_map]
        · rw [hr3]; rfl
        · exact fun x hx => hx
        · exact h3some
      · have hrt : (remarks != "") = true := by simpa using hrr
        rw [hrt]
        show ((updateOne (fun r => r.id == ar.id) _ db.pickupRequests).find?
            (fun r => r.id == ar.id)).map (fun r => r.status) = some "completed"
        rw [find?_updateOne_map]
        · rw [hr3]; rfl
        · exact fun x hx => hx
        · exact h3some

/-- Witness store for C5: a COLLECTED-bound item with vendor 1 holding an
approved claim. -/
def dbC5w : DB :=
  { emptyDB with
      ewasteItems := [mkItem oidItemW (some oidUser1) "REPORTED"],
      pickupRequests := [{ mkPending oidReqE oidItemW oidVendor1 oidUser1 with
                           status := "approved" }] }

theorem C5_witness :
    isValidOid oidItemW = true ∧
    ((validStatuses.contains "COLLECTED" = false →
      update_item_status dbC5w (some vendor1) oidItemW "COLLECTED" "" 21 =
        (Resp.err 400 "Invalid status. Must be one of: COLLECTED, IN_STORAGE, SENT_TO_VENDOR, RECYCLED, DISPOSED", dbC5w)) ∧
    (validStatuses.contains "COLLECTED" = true →
      (update_item_status dbC5w (some vendor1) oidItemW "COLLECTED" "" 21).1 = Resp.ok ∧
      ((update_item_status dbC5w (some vendor1) oidItemW "COLLECTED" "" 21).2.ewasteItems.find?
          (fun x => x.id == oidItemW)) =
        some { mkItem oidItemW (some oidUser1) "REPORTED" with status := "COLLECTED" } ∧
      (update_item_status dbC5w (some vendor1) oidItemW "COLLECTED" "" 21).2.itemStatusLogs =
        dbC5w.itemStatusLogs ++
          [{ itemId := oidItemW, fromStatus := (mkItem oidItemW (some oidUser1) "REPORTED").status,
             toStatus := "COLLECTED", changedBy := vendor1.id, changedAt := 21, remarks := "",
             userType := "vendor" }] ∧
      ("COLLECTED" = "COLLECTED" →
        ((update_item_status dbC5w (some vendor1) oidItemW "COLLECTED" "" 21).2.pickupRequests.find?
            (fun r => r.id == { mkPending oidReqE oidItemW oidVendor1 oidUser1 with
                                status := "approved" }.id)).map (fun r => r.status) =
          some "completed"))) :=
  ⟨by decide,
   C5_advance_status_contract dbC5w vendor1 oidItemW "COLLECTED" ""
     { mkPending oidReqE oidItemW oidVendor1 oidUser1 with status := "approved" }
     (mkItem oidItemW (some oidUser1) "REPORTED") 21
     rfl (by decide) (by decide) (by decide)⟩

/-- Store for the C6 counterexample: a RECYCLED item whose vendor still
holds an approved claim. -/
def dbC6 : DB :=
  { emptyDB with
      ewasteItems := [mkItem oidItemV (some oidUser1) "RECYCLED"],
      pickupRequests := [{ mkPending oidReqF oidItemV oidVendor1 oidUser1 with
                           status := "approved" }] }

/-- C6 is false on the code: an item whose status is the \x22terminal\x22
RECYCLED is moved back to COLLECTED by `update_item_status` — the status
changes again and moves backward along the chain. -/
theorem C6_counterexample :
    (update_item_status dbC6 (some vendor1) oidItemV "COLLECTED" "" 5).1 = Resp.ok ∧
    ((update_item_status dbC6 (some vendor1) oidItemV "COLLECTED" "" 5).2.ewasteItems.find?
        (fun x => x.id == oidItemV)).map (fun x => x.status) = some "COLLECTED" := by
  decide

/-- C6 (amended): `update_item_status` never compares the target against
the item\x27s current status; any of the five whitelisted targets is
accepted from any current status, so RECYCLED and DISPOSED are not
terminal and backward moves are permitted — the only unreachable target
is REPORTED (absent from the whitelist). -/
theorem C6_amended_terminal_states_not_enforced
    (db : DB) (u : Principal) (item_id target remarks : String)
    (ar : PickupRequestDoc) (it : ItemDoc) (now : Nat)
    (hrole : u.role = Role.VENDOR)
    (hoid : isValidOid item_id = true)
    (har : db.pickupRequests.find? (fun r =>
        r.itemId == item_id && r.vendorId == u.id &&
          (r.status == "approved" || r.status == "completed")) = some ar)
    (hitem : db.ewasteItems.find? (fun x => x.id == item_id) = some it)
    (hterm : it.status = "RECYCLED" ∨ it.status = "DISPOSED")
    (htgt : validStatuses.contains target = true) :
    (update_item_status db (some u) item_id target remarks now).1 = Resp.ok ∧
    ((update_item_status db (some u) item_id target remarks now).2.ewasteItems.find?
        (fun x => x.id == item_id)) = some { it with status := target } := by
  have hs := update_item_status_success db u item_id target remarks ar it now
    hrole hoid har hitem htgt
  have hsome2 : (db.ewasteItems.find? (fun x => x.id == item_id)).isSome = true := by
    rw [hitem]; rfl
  refine ⟨by rw [hs], ?_⟩
  rw [hs]
  show (updateOne (fun x => x.id == item_id)
      (fun x => { x with status := target }) db.ewasteItems).find?
      (fun x => x.id == item_id) = some { it with status := target }
  rw [find?_updateOne_map]
  · rw [hitem]; rfl
  · exact fun x hx => hx
  · exact hsome2

/-- Witness store for the amended C6: a DISPOSED item with an approved
claim, moved back to IN_STORAGE. -/
def dbC6w : DB :=
  { emptyDB with
      ewasteItems := [mkItem oidItemU (some oidUser1) "DISPOSED"],
      pickupRequests := [{ mkPending oidReqG oidItemU oidVendor1 oidUser1 with
                           status := "approved" }] }

theorem C6_amended_witness :
    ((mkItem oidItemU (some oidUser1) "DISPOSED").status = "RECYCLED" ∨
     (mkItem oidItemU (some oidUser1) "DISPOSED").status = "DISPOSED") ∧
    ((update_item_status dbC6w (some vendor1) oidItemU "IN_STORAGE" "" 23).1 = Resp.ok ∧
     ((update_item_status dbC6w (some vendor1) oidItemU "IN_STORAGE" "" 23).2.ewasteItems.find?
        (fun x => x.id == oidItemU)) =
       some { mkItem oidItemU (some oidUser1) "DISPOSED" with status := "IN_STORAGE" }) :=
  ⟨Or.inr rfl,
   C6_amended_terminal_states_not_enforced dbC6w vendor1 oidItemU "IN_STORAGE" ""
     { mkPending oidReqG oidItemU oidVendor1 oidUser1 with status := "approved" }
     (mkItem oidItemU (some oidUser1) "DISPOSED") 23
     rfl (by decide) (by decide) (by decide) (Or.inr rfl) (by decide)⟩

/-- C10: every successful `update_item_status` call with non-empty
remarks overwrites the matched request\x27s `vendor_notes` with the
remarks, whatever the target status is — not only for COLLECTED. -/
theorem C10_remarks_overwrite_vendor_notes
    (db : DB) (u : Principal) (item_id target remarks : String)
    (ar : PickupRequestDoc) (it : ItemDoc) (now : Nat)
    (hrole : u.role = Role.VENDOR)
    (hoid : isValidOid item_id = true)
    (har : db.pickupRequests.find? (fun r =>
        r.itemId == item_id && r.vendorId == u.id &&
          (r.status == "approved" || r.status == "completed")) = some ar)
    (hitem : db.ewasteItems.find? (fun x => x.id == item_id) = some it)
    (htgt : validStatuses.contains target = true)
    (hrem : ¬remarks = "") :
    (update_item_status db (some u) item_id target remarks now).1 = Resp.ok ∧
    ((update_item_status db (some u) item_id target remarks now).2.pickupRequests.find?
        (fun r => r.id == ar.id)).map (fun r => r.vendorNotes) = some (some remarks) := by
  have hs := update_item_status_success db u item_id target remarks ar it now
    hrole hoid har hitem htgt
  have h3some : (db.pickupRequests.find? (fun r => r.id == ar.id)).isSome = true :=
    find?_isSome_of_mem (List.mem_of_find?_eq_some har) (by simp)
  obtain ⟨r3, hr3⟩ := Option.isSome_iff_exists.mp h3some
  have hrt : (remarks != "") = true := by simpa using hrem
  have hpick : (update_item_status db (some u) item_id target remarks now).2.pickupRequests =
      updateOne (fun r => r.id == ar.id)
        (fun r =>
          let r1 := if remarks != "" then { r with vendorNotes := some remarks } else r
          if target == "COLLECTED" then { r1 with status := "completed" } else r1)
        db.pickupRequests := by
    rw [hs, hrt]
    rfl
  refine ⟨by rw [hs], ?_⟩
  rw [hpick]
  rw [find?_updateOne_map]
  · rw [hr3, hrt]
    rcases Bool.eq_false_or_eq_true (target == "COLLECTED") with htb | htb <;>
      rw [htb] <;> rfl
  · intro x hx
    rcases Bool.eq_false_or_eq_true (remarks != "") with hrb | hrb <;>
      rcases Bool.eq_false_or_eq_true (target == "COLLECTED") with htb | htb <;>
        rw [hrb, htb] <;> exact hx
  · exact h3some

/-- Witness store for C10: an approved claim advanced to SENT_TO_VENDOR
with remarks. -/
def dbC10w : DB :=
  { emptyDB with
      ewasteItems := [mkItem oidItemT (some oidUser1) "IN_STORAGE"],
      pickupRequests := [{ mkPending oidReqH oidItemT oidVendor2 oidUser1 with
                           status := "completed" }] }

theorem C10_witness :
    ¬("crated" = "") ∧
    ((update_item_status dbC10w (some vendor2) oidItemT "SENT_TO_VENDOR" "crated" 29).1
        = Resp.ok ∧
     ((update_item_status dbC10w (some vendor2) oidItemT "SENT_TO_VENDOR" "crated" 29).2.pickupRequests.find?
        (fun r => r.id == { mkPending oidReqH oidItemT oidVendor2 oidUser1 with
                            status := "completed" }.id)).map (fun r => r.vendorNotes) =
       some (some "crated")) :=
  ⟨by decide,
   C10_remarks_overwrite_vendor_notes dbC10w vendor2 oidItemT "SENT_TO_VENDOR" "crated"
     { mkPending oidReqH oidItemT oidVendor2 oidUser1 with status := "completed" }
     (mkItem oidItemT (some oidUser1) "IN_STORAGE") 29
     rfl (by decide) (by decide) (by decide) (by decide) (by decide)⟩

/-! ## C9 — deleting an ownerless item -/

/-- C9: for an existing item whose `reported_by_id` is missing, null or
empty, `delete_item` first stamps the caller as owner (so the ownership
check necessarily passes, whatever the caller\x27s role) and then deletes
the item together with every pickup request referencing it. -/
theorem C9_delete_ownerless_item
    (db : DB) (u : Principal) (item_id : String) (it : ItemDoc)
    (hoid : isValidOid item_id = true)
    (hfind : db.ewasteItems.find? (fun x => x.id == item_id) = some it)
    (hownerless : it.reportedById = none ∨ it.reportedById = some "") :
    delete_item db (some u) item_id =
      (Resp.ok,
       { db with
           ewasteItems := deleteOne (fun x => x.id == item_id) db.ewasteItems,
           pickupRequests := deleteMany (fun r => r.itemId == item_id) db.pickupRequests }) := by
  have hany : (updateOne (fun x => x.id == item_id)
      (fun x => { x with reportedById := some u.id }) db.ewasteItems).any
      (fun x => x.id == item_id) = true := by
    rw [any_updateOne]
    · exact any_eq_true_of_find?_eq_some hfind
    · exact fun x => rfl
  have hnot : ¬∀ x ∈ updateOne (fun x => x.id == item_id)
      (fun x => { x with reportedById := some u.id }) db.ewasteItems, ¬x.id = item_id := by
    intro hall
    rcases List.any_eq_true.mp hany with ⟨x, hxmem, hxp⟩
    exact hall x hxmem (by simpa using hxp)
  have hdel : deleteOne (fun x => x.id == item_id)
      (updateOne (fun x => x.id == item_id)
        (fun x => { x with reportedById := some u.id }) db.ewasteItems) =
      deleteOne (fun x => x.id == item_id) db.ewasteItems := by
    apply deleteOne_updateOne
    exact fun x => rfl
  rcases hownerless with hoc | hoc <;>
    simp [delete_item, hoid, hfind, hoc, hnot, hdel]

/-- Witness store for C9: an ownerless item with two attached pickup
requests, deleted by a vendor who is neither reporter nor claimant. -/
def dbC9w : DB :=
  { emptyDB with
      ewasteItems := [mkItem oidItemS none "REPORTED"],
      pickupRequests := [mkPending oidReqI oidItemS oidVendor1 oidUser1,
                         mkPending oidReqJ oidItemS oidVendor2 oidUser1] }

theorem C9_witness :
    ((mkItem oidItemS none "REPORTED").reportedById = none ∨
     (mkItem oidItemS none "REPORTED").reportedById = some "") ∧
    delete_item dbC9w (some vendor2) oidItemS =
      (Resp.ok,
       { dbC9w with
           ewasteItems := deleteOne (fun x => x.id == oidItemS) dbC9w.ewasteItems,
           pickupRequests := deleteMany (fun r => r.itemId == oidItemS) dbC9w.pickupRequests }) :=
  ⟨Or.inl rfl,
   C9_delete_ownerless_item dbC9w vendor2 oidItemS (mkItem oidItemS none "REPORTED")
     (by decide) (by decide) (Or.inl rfl)⟩

/-! ## C7 — selling-price validation -/

/-- C7 is false on the code: `float  "nan"` parses, and the handler\x27s
positivity check `parsed_price <= 0` is false for NaN, so a selling item
is created whose stored price is NaN — a price that is not strictly
greater than zero.  Both the claimed Validation failure and the claimed
positivity invariant fail at this input. -/
theorem C7_counterexample :
    parsePyFloat? "nan" = some PyFloat.nan ∧
    pyGt0 PyFloat.nan = false ∧
    (create_item emptyDB (some user1) "Scale" none oidCat1 oidDep1 none none
        (some "nan") (some "selling") none none 41 oidItemN).1 = Resp.redirect "/items/" ∧
    ((create_item emptyDB (some user1) "Scale" none oidCat1 oidDep1 none none
        (some "nan") (some "selling") none none 41 oidItemN).2.ewasteItems.map
      (fun x => x.price)) = [some PyFloat.nan] := by
  decide

/-- C7 (amended): with disposition selling, a price that is absent,
blank, rejected by `float`, or parsing to a value with `v <= 0` true
(negative, zero, `-inf`, or a positive literal rounding to `0.0`) fails
with a 400 Validation error and the store is unchanged; disposition
disposed succeeds storing a null price; and a created item\x27s price is
non-null with `v <= 0` false exactly when its disposition is selling.
Because IEEE comparisons with NaN are false, `nan` (and `inf`) pass the
check, so \x22price not `<= 0`\x22 cannot be strengthened to \x22strictly
positive\x22. -/
theorem C7_amended_price_validation
    (db : DB) (u : Principal) (name : String) (serial_number : Option String)
    (category_id department_id : String)
    (purchase_date weight_kg price : Option String)
    (disposition_type notes photo_path : Option String)
    (now : Nat) (newId : String)
    (hrole : u.role ≠ Role.VENDOR)
    (hc : isValidOid category_id = true)
    (hd : isValidOid department_id = true) :
    (disposition_type = some "selling" →
      (price = none ∨ ∃ s, price = some s ∧
        (pyTrim s = "" ∨ parsePyFloat? s = none ∨
          ∃ v, parsePyFloat? s = some v ∧ pyLe0 v = true)) →
      ∃ d, create_item db (some u) name serial_number category_id department_id
            purchase_date weight_kg price disposition_type notes photo_path now newId
          = (Resp.err 400 d, db)) ∧
    (disposition_type = some "disposed" →
      ∃ newIt, create_item db (some u) name serial_number category_id department_id
            purchase_date weight_kg price disposition_type notes photo_path now newId
          = (Resp.redirect "/items/",
             { db with ewasteItems := db.ewasteItems ++ [newIt] }) ∧
        newIt.price = none) ∧
    (∀ newIt, (create_item db (some u) name serial_number category_id department_id
          purchase_date weight_kg price disposition_type notes photo_path now newId).2.ewasteItems
        = db.ewasteItems ++ [newIt] →
      ((∃ v, newIt.price = some v ∧ pyLe0 v = false) ↔ disposition_type = some "selling")) := by
  have hpvP : ¬pyLower u.role.pyStr = "vendor" := by
    have := pyLower_pyStr_ne_vendor u.role
    simpa using this
  refine ⟨?_, ?_, ?_⟩
  · intro hdt hbad
    subst hdt
    rcases hbad with hp | ⟨s, hps, hbad2⟩
    · subst hp
      exact ⟨"Please enter a selling price for items you want to sell",
        by simp [create_item, hpvP, hc, hd]⟩
    · subst hps
      by_cases hts : pyTrim s = ""
      · exact ⟨"Please enter a selling price for items you want to sell",
          by simp [create_item, hpvP, hc, hd, hts]⟩
      · rcases hbad2 with hts' | hpf | ⟨v, hpf, hv⟩
        · exact absurd hts' hts
        · exact ⟨"Please enter a valid selling price (numbers only)",
            by simp [create_item, hpvP, hc, hd, hts, hpf]⟩
        · exact ⟨"Selling price must be greater than 0",
            by simp [create_item, hpvP, hc, hd, hts, hpf, hv]⟩
  · intro hdt
    subst hdt
    refine ⟨{ id := newId, name := name, serialNumber := serial_number,
              categoryId := category_id, departmentId := department_id,
              purchaseDate := purchase_date.bind isoDate?,
              weightKg := weight_kg.bind (fun s => if pyTrim s == "" then none else parsePyFloat? s),
              price := none, dispositionType := some "disposed",
              notes := notes, photoPath := photo_path,
              reportedById := some u.id, reportedDate := now,
              status := "REPORTED" }, ?_, rfl⟩
    simp [create_item, hpvP, hc, hd]
  · intro newIt hgrow
    by_cases hsell : disposition_type = some "selling"
    · subst hsell
      constructor
      · intro _; rfl
      · intro _
        rcases price with _ | s
        · have hcontra : db.ewasteItems = db.ewasteItems ++ [newIt] := by
            simpa [create_item, hpvP, hc, hd] using hgrow
          exact absurd hcontra.symm (append_singleton_ne _ _)
        · by_cases hts : pyTrim s = ""
          · have hcontra : db.ewasteItems = db.ewasteItems ++ [newIt] := by
              simpa [create_item, hpvP, hc, hd, hts] using hgrow
            exact absurd hcontra.symm (append_singleton_ne _ _)
          · rcases hpf : parsePyFloat? s with _ | v
            · have hcontra : db.ewasteItems = db.ewasteItems ++ [newIt] := by
                simpa [create_item, hpvP, hc, hd, hts, hpf] using hgrow
              exact absurd hcontra.symm (append_singleton_ne _ _)
            · by_cases hv : pyLe0 v = true
              · have hcontra : db.ewasteItems = db.ewasteItems ++ [newIt] := by
                  simpa [create_item, hpvP, hc, hd, hts, hpf, hv] using hgrow
                exact absurd hcontra.symm (append_singleton_ne _ _)
              · have hv' : pyLe0 v = false := by simpa using hv
                have heq : db.ewasteItems ++
                    [({ id := newId, name := name, serialNumber := serial_number,
                        categoryId := category_id, departmentId := department_id,
                        purchaseDate := purchase_date.bind isoDate?,
                        weightKg := weight_kg.bind
                          (fun w => if pyTrim w == "" then none else parsePyFloat? w),
                        price := some v, dispositionType := some "selling",
                        notes := notes, photoPath := photo_path,
                        reportedById := some u.id, reportedDate := now,
                        status := "REPORTED" } : ItemDoc)] =
                    db.ewasteItems ++ [newIt] := by
                  simpa [create_item, hpvP, hc, hd, hts, hpf, hv'] using hgrow
                have hrec := List.append_cancel_left heq
                have hni := (List.cons_eq_cons.mp hrec).1
                rw [← hni]
                exact ⟨v, rfl, hv'⟩
    · constructor
      · rintro ⟨v, hvp, hv0⟩
        by_cases hdis : disposition_type = some "disposed"
        · subst hdis
          have heq : db.ewasteItems ++
              [({ id := newId, name := name, serialNumber := serial_number,
                  categoryId := category_id, departmentId := department_id,
                  purchaseDate := purchase_date.bind isoDate?,
                  weightKg := weight_kg.bind
                    (fun w => if pyTrim w == "" then none else parsePyFloat? w),
                  price := none, dispositionType := some "disposed",
                  notes := notes, photoPath := photo_path,
                  reportedById := some u.id, reportedDate := now,
                  status := "REPORTED" } : ItemDoc)] =
              db.ewasteItems ++ [newIt] := by
            simpa [create_item, hpvP, hc, hd] using hgrow
          have hrec := List.append_cancel_left heq
          have hni := (List.cons_eq_cons.mp hrec).1
          rw [← hni] at hvp
          simp at hvp
        · have hcontra : db.ewasteItems = db.ewasteItems ++ [newIt] := by
            simpa [create_item, hpvP, hc, hd, hsell, hdis] using hgrow
          exact absurd hcontra.symm (append_singleton_ne _ _)
      · intro hds
        exact absurd hds hsell

theorem C7_amended_witness :
    isValidOid oidCat1 = true ∧
    ((some "selling" = some "selling" →
      ((some "0" : Option String) = none ∨ ∃ s, (some "0" : Option String) = some s ∧
        (pyTrim s = "" ∨ parsePyFloat? s = none ∨
          ∃ v, parsePyFloat? s = some v ∧ pyLe0 v = true)) →
      ∃ d, create_item emptyDB (some user1) "Server Rack" none oidCat1 oidDep1
            none none (some "0") (some "selling") none none 37 oidItemP
          = (Resp.err 400 d, emptyDB)) ∧
     (some "selling" = some "disposed" →
      ∃ newIt, create_item emptyDB (some user1) "Server Rack" none oidCat1 oidDep1
            none none (some "0") (some "selling") none none 37 oidItemP
          = (Resp.redirect "/items/",
             { emptyDB with ewasteItems := emptyDB.ewasteItems ++ [newIt] }) ∧
        newIt.price = none) ∧
     (∀ newIt, (create_item emptyDB (some user1) "Server Rack" none oidCat1 oidDep1
          none none (some "0") (some "selling") none none 37 oidItemP).2.ewasteItems
        = emptyDB.ewasteItems ++ [newIt] →
      ((∃ v, newIt.price = some v ∧ pyLe0 v = false) ↔ some "selling" = some "selling"))) :=
  ⟨by decide,
   C7_amended_price_validation emptyDB user1 "Server Rack" none oidCat1 oidDep1
     none none (some "0") (some "selling") none none 37 oidItemP
     (by decide) (by decide) (by decide)⟩

/-! ## C8 — referential validation at creation -/

/-- C8 is false on the code: with empty category and department
collections, a createItem call whose references resolve to nothing does
not fail with NotFound — it succeeds and an item is created. -/
theorem C8_counterexample :
    emptyDB.categories.find? (fun c => c.id == oidCat1) = none ∧
    emptyDB.departments.find? (fun d => d.id == oidDep1) = none ∧
    (create_item emptyDB (some user1) "Printer" none oidCat1 oidDep1 none none none
        (some "disposed") none none 2 oidItemQ).1 = Resp.redirect "/items/" ∧
    (create_item emptyDB (some user1) "Printer" none oidCat1 oidDep1 none none none
        (some "disposed") none none 2 oidItemQ).2.ewasteItems.length = 1 := by
  decide

/-- C8 (amended): `create_item` validates only that the category and
department ids are well-formed ObjectId strings, failing with a 400
Validation error (not NotFound) on a malformed id; it never consults the
categories or departments collections, so an item is created even when
its references resolve to no record. -/
theorem C8_amended_reference_checks
    (db : DB) (u : Principal) (name : String) (serial_number : Option String)
    (category_id department_id : String)
    (purchase_date weight_kg price : Option String)
    (notes photo_path : Option String) (now : Nat) (newId : String)
    (hrole : u.role ≠ Role.VENDOR) :
    (isValidOid category_id = false →
      create_item db (some u) name serial_number category_id department_id
          purchase_date weight_kg price (some "disposed") notes photo_path now newId
        = (Resp.err 400 ("Invalid category or department ID: " ++ bsonInvalidIdMsg category_id), db)) ∧
    (isValidOid category_id = true → isValidOid department_id = false →
      create_item db (some u) name serial_number category_id department_id
          purchase_date weight_kg price (some "disposed") notes photo_path now newId
        = (Resp.err 400 ("Invalid category or department ID: " ++ bsonInvalidIdMsg department_id), db)) ∧
    (isValidOid category_id = true → isValidOid department_id = true →
      db.categories.find? (fun c => c.id == category_id) = none →
      ∃ newIt, create_item db (some u) name serial_number category_id department_id
            purchase_date weight_kg price (some "disposed") notes photo_path now newId
          = (Resp.redirect "/items/",
             { db with ewasteItems := db.ewasteItems ++ [newIt] }) ∧
        newIt.categoryId = category_id ∧ newIt.departmentId = department_id) := by
  have hpvP : ¬pyLower u.role.pyStr = "vendor" := by
    have := pyLower_pyStr_ne_vendor u.role
    simpa using this
  refine ⟨?_, ?_, ?_⟩
  · intro hcbad
    simp [create_item, hpvP, hcbad]
  · intro hc hdbad
    simp [create_item, hpvP, hc, hdbad]
  · intro hc hd hmissing
    refine ⟨{ id := newId, name := name, serialNumber := serial_number,
              categoryId := category_id, departmentId := department_id,
              purchaseDate := purchase_date.bind isoDate?,
              weightKg := weight_kg.bind (fun s => if pyTrim s == "" then none else parsePyFloat? s),
              price := none, dispositionType := some "disposed",
              notes := notes, photoPath := photo_path,
              reportedById := some u.id, reportedDate := now,
              status := "REPORTED" }, ?_, rfl, rfl⟩
    simp [create_item, hpvP, hc, hd]

theorem C8_amended_witness :
    emptyDB.categories.find? (fun c => c.id == oidCat1) = none ∧
    (∃ newIt, create_item emptyDB (some user1) "CRT Monitor" none oidCat1 oidDep1
          none none none (some "disposed") none none 31 oidItemR
        = (Resp.redirect "/items/",
           { emptyDB with ewasteItems := emptyDB.ewasteItems ++ [newIt] }) ∧
      newIt.categoryId = oidCat1 ∧ newIt.departmentId = oidDep1) :=
  ⟨by decide,
   (C8_amended_reference_checks emptyDB user1 "CRT Monitor" none oidCat1 oidDep1
      none none none none none 31 oidItemR (by decide)).2.2
     (by decide) (by decide) (by decide)⟩

end Trash
